import Mathlib

/-!
Shallow embedding of the `bacnet_parse` BACnet APDU decoder
(`src/nsdu.rs` and `src/nsdu/apdu/unconfirmed_request_pdu.rs`).

Byte buffers (`&[u8]`) are embedded as `List Nat`; every element of a real
buffer is a `u8`, i.e. `< 256`, which theorems assume explicitly where the
arithmetic depends on it.  Rust `Result<T, Error>` together with the two
abort routes present in the source (`core::hint::unreachable_unchecked` and
`Result::unwrap`) is embedded as `PResult`, whose third constructor `ub`
marks an abort / undefined-behaviour outcome; a function that can never
abort is one that never returns `ub`.
-/

namespace BacnetParse

/-- Modelled from the spec: the crate-level `Error` type is not under `src/`
(only its uses are).  Spec section 7 gives the closed taxonomy: `Length` and
`InvalidValue`, each carried with a static message string in the source. -/
inductive Error where
  | Length (msg : String)
  | InvalidValue (msg : String)
deriving DecidableEq, Repr

/-- Outcome of a decode step: `ok`/`err` embed Rust `Ok`/`Err`, while `ub`
marks the abort routes in the source (`unreachable_unchecked`, `unwrap` on
an `Err`). -/
inductive PResult (α : Type) where
  | ok (a : α)
  | err (e : Error)
  | ub
deriving DecidableEq, Repr

def PResult.bind {α β : Type} : PResult α → (α → PResult β) → PResult β
  | .ok a, f => f a
  | .err e, _ => .err e
  | .ub, _ => .ub

instance : Monad PResult where
  pure := PResult.ok
  bind := PResult.bind

/-- Rust `?` on a plain `Result` (no abort route), lifted into `PResult`. -/
def PResult.ofExcept {α : Type} : Except Error α → PResult α
  | .ok a => .ok a
  | .error e => .err e

/-- Tag class bit: application or context-specific (spec section 3). -/
inductive TagClass where
  | Application
  | ContextSpecific
deriving DecidableEq, Repr

/-- Modelled from the spec: the `TagType` enumeration lives in the missing
`tag.rs`.  Spec section 3 lists the closed set of application-tag kinds in
wire order (codes 0-12); context tags carry no intrinsic kind. -/
inductive TagType where
  | Null
  | Boolean
  | UnsignedInt
  | SignedInt
  | Real
  | Double
  | OctetString
  | CharacterString
  | BitString
  | Enumerated
  | Date
  | Time
  | ObjectId
  | Unknown
deriving DecidableEq, Repr

/-- Marker for ordinary value tags versus opening/closing tags of
constructed data (spec section 4.1 steps 5-6). -/
inductive TagMarker where
  | value
  | opening
  | closing
deriving DecidableEq, Repr

/-- Modelled from the spec: the `Tag` struct lives in the missing `tag.rs`.
Fields used by the code under `src/` are `number` and `value`
(length-or-value); the class and open/close marker come from spec
section 3. -/
structure Tag where
  number : Nat
  cls : TagClass
  value : Nat
  marker : TagMarker
deriving DecidableEq, Repr

/-- Modelled from the spec: the kind of an application tag is given by its
tag number through the closed list of spec section 3; context tags carry no
intrinsic kind. -/
def Tag.tag_type (t : Tag) : TagType :=
  match t.cls with
  | .ContextSpecific => .Unknown
  | .Application =>
    match t.number with
    | 0 => .Null
    | 1 => .Boolean
    | 2 => .UnsignedInt
    | 3 => .SignedInt
    | 4 => .Real
    | 5 => .Double
    | 6 => .OctetString
    | 7 => .CharacterString
    | 8 => .BitString
    | 9 => .Enumerated
    | 10 => .Date
    | 11 => .Time
    | 12 => .ObjectId
    | _ => .Unknown

/-- Modelled from the spec: `Tag::parse` lives in the missing `tag.rs`.
Spec section 4.1: read byte 0 (bits 4-7 tag-number field, bit 3 class,
bits 0-2 LVT); a tag-number field of 15 means the true number is the next
byte; LVT 0-4 is the literal length, LVT 5 an extended length (next byte,
or 2 or 4 big-endian bytes when that byte is 254 resp. 255), LVT 6/7
opening/closing tags of length 0.  Every read past the end fails with
`Length`.  `Tag.withLvt` is the LVT-field handling shared by the plain and
extended-tag-number paths of `Tag.parse`. -/
def Tag.withLvt (number : Nat) (cls : TagClass) (lvt : Nat) (rest : List Nat) :
    PResult (List Nat × Tag) :=
  if lvt ≤ 4 then
    .ok (rest, { number := number, cls := cls, value := lvt, marker := .value })
  else if lvt = 5 then
    match rest with
    | [] => .err (.Length "not enough bytes for extended tag length")
    | l :: rest2 =>
      if l < 254 then
        .ok (rest2, { number := number, cls := cls, value := l, marker := .value })
      else if l = 254 then
        match rest2 with
        | hi :: lo :: rest3 =>
          .ok (rest3, { number := number, cls := cls, value := hi * 256 + lo, marker := .value })
        | _ => .err (.Length "not enough bytes for extended tag length")
      else
        match rest2 with
        | a :: b :: c :: d :: rest3 =>
          .ok (rest3,
            { number := number, cls := cls,
              value := ((a * 256 + b) * 256 + c) * 256 + d, marker := .value })
        | _ => .err (.Length "not enough bytes for extended tag length")
  else if lvt = 6 then
    .ok (rest, { number := number, cls := cls, value := 0, marker := .opening })
  else
    .ok (rest, { number := number, cls := cls, value := 0, marker := .closing })

def Tag.parse (bytes : List Nat) : PResult (List Nat × Tag) :=
  match bytes with
  | [] => .err (.Length "not enough bytes for tag")
  | b0 :: rest =>
    let numberField := (b0 >>> 4) &&& 0xF
    let cls := if b0 &&& 0x8 ≠ 0 then TagClass.ContextSpecific else TagClass.Application
    let lvt := b0 &&& 0x7
    if numberField = 15 then
      match rest with
      | [] => .err (.Length "not enough bytes for extended tag number")
      | n :: rest2 => Tag.withLvt n cls lvt rest2
    else
      Tag.withLvt numberField cls lvt rest

/-- Modelled from the spec: `object_type.rs` is not under `src/`.  Spec
section 6 requires a `Device` variant and a total mapping from a 10-bit
code to a variant with an "unrecognized" (reserved/proprietary) case.
`Device` has wire code 8 in the BACnet object-type table. -/
inductive ObjectType where
  | ObjectDevice
  | Other (code : Nat)
deriving DecidableEq, Repr

/-- Modelled from the spec: the total code-to-variant mapping used as
`ObjectType::from` by `parse_object_id`; unknown codes map to the
reserved/proprietary variant, never an error. -/
def ObjectType.ofCode (code : Nat) : ObjectType :=
  if code = 8 then .ObjectDevice else .Other code

/-- The 10-bit wire code of an `ObjectType` variant. -/
def ObjectType.code : ObjectType → Nat
  | .ObjectDevice => 8
  | .Other c => c

-- `unconfirmed_request_pdu.rs` lines 32-55
inductive Segmentation where
  | Both
  | Transmit
  | Receive
  | None
  | Max
deriving DecidableEq, Repr

/-- `impl TryFrom<u32> for Segmentation` (`unconfirmed_request_pdu.rs`
lines 42-55). -/
def Segmentation.tryFrom (value : Nat) : Except Error Segmentation :=
  match value with
  | 0 => .ok .Both
  | 1 => .ok .Transmit
  | 2 => .ok .Receive
  | 3 => .ok .None
  | 4 => .ok .Max
  | _ => .error (.InvalidValue "invalid segmentation value")

-- `nsdu.rs` lines 12-14
def BACNET_MAX_INSTANCE : Nat := 0x3FFFFF

def BACNET_INSTANCE_BITS : Nat := 22

def BACNET_MAX_OBJECT : Nat := 0x3FF

/-- `parse_unsigned` (`nsdu.rs` lines 26-47): big-endian unsigned decode of
`sz` bytes, `sz` checked to be 1-4 first, then the length check; the final
`_` match arm is the source's `unreachable_unchecked`. -/
def parse_unsigned (bytes : List Nat) (sz : Nat) : PResult (List Nat × Nat) :=
  if sz > 4 ∨ sz = 0 then
    .err (.InvalidValue "unsigned len value is 0 or greater than 4")
  else if bytes.length < sz then
    .err (.Length "unsigned len value greater than remaining bytes")
  else
    match sz, bytes with
    | 1, b0 :: _ => .ok (bytes.drop 1, b0)
    | 2, b0 :: b1 :: _ => .ok (bytes.drop 2, b0 * 256 + b1)
    | 3, b0 :: b1 :: b2 :: _ => .ok (bytes.drop 3, (b0 <<< 16) ||| (b1 <<< 8) ||| b2)
    | 4, b0 :: b1 :: b2 :: b3 :: _ => .ok (bytes.drop 4, ((b0 * 256 + b1) * 256 + b2) * 256 + b3)
    | _, _ => .ub

/-- `parse_enumerated` (`nsdu.rs` lines 17-24), generic over the fallible
conversion `T::try_from`: the source calls `.unwrap()` on the inner
`parse_unsigned` result, so an inner failure aborts (`ub`) instead of
propagating. -/
def parse_enumerated {α : Type} (tryFrom : Nat → Except Error α)
    (bytes : List Nat) (sz : Nat) : PResult (List Nat × α) :=
  match parse_unsigned bytes sz with
  | .ok (bytes, value) =>
    match tryFrom value with
    | .ok v => .ok (bytes, v)
    | .error e => .err e
  | .err _ => .ub
  | .ub => .ub

-- `unconfirmed_request_pdu.rs` lines 57-61
structure ObjectId where
  object_type : ObjectType
  id : Nat
deriving DecidableEq, Repr

/-- `parse_object_id` (`nsdu.rs` lines 49-56): decode an unsigned value,
then split it at bit 22 into object type and instance. -/
def parse_object_id (bytes : List Nat) (sz : Nat) : PResult (List Nat × ObjectId) :=
  match parse_unsigned bytes sz with
  | .ok (bytes, value) =>
    let object_type := (value >>> BACNET_INSTANCE_BITS) &&& BACNET_MAX_OBJECT
    let object_type := ObjectType.ofCode object_type
    let id := value &&& BACNET_MAX_INSTANCE
    .ok (bytes, { object_type := object_type, id := id })
  | .err e => .err e
  | .ub => .ub

/-- Modelled from the spec: the `APDU` struct (spec section 3) is a view
over the bytes of one application-layer message; the code under `src/` uses
only its `bytes` field. -/
structure APDU where
  bytes : List Nat
deriving DecidableEq, Repr

-- `unconfirmed_request_pdu.rs` lines 63-67
structure WhoIsLimits where
  low_limit : Nat
  high_limit : Nat
deriving DecidableEq, Repr

/-- `WhoIsLimits::parse` (`unconfirmed_request_pdu.rs` lines 69-98): the
`length <= 1` branch is the source's `0 | 1 => unreachable_unchecked` arm; a 2-byte buffer means
"no limits"; otherwise a tag is parsed at offset 2, its number must be 0,
its value is the byte width of `low_limit`, then a second tag (number not
re-checked) and `high_limit`; the remainder after `high_limit` is
discarded. -/
def WhoIsLimits.parse (apdu : APDU) : PResult (Option WhoIsLimits) :=
  if apdu.bytes.length ≤ 1 then .ub
  else if apdu.bytes.length = 2 then .ok none
  else do
    let (bytes, tag) ← Tag.parse (apdu.bytes.drop 2)
    if tag.number ≠ 0 then
      PResult.err (.InvalidValue "Non-zero tag number in WhoIs")
    else do
      let (bytes, low_limit) ← parse_unsigned bytes tag.value
      let (bytes, tag) ← Tag.parse bytes
      let (_, high_limit) ← parse_unsigned bytes tag.value
      pure (some { low_limit := low_limit, high_limit := high_limit })

-- `unconfirmed_request_pdu.rs` lines 100-106
structure IAmData where
  device_id : ObjectId
  max_apdu : Nat
  segmentation : Segmentation
  vendor_id : Nat
deriving DecidableEq, Repr

/-- `IAmData::parse` (`unconfirmed_request_pdu.rs` lines 108-182): the
`length <= 1` branch is the source's `0 | 1 => unreachable_unchecked` arm; otherwise four
tag-plus-value steps decode `device_id` (tag kind must be `ObjectId`, the
object type must be `Device`), `max_apdu` (tag kind `UnsignedInt`),
`segmentation` (tag kind `Enumerated`, converted through
`Segmentation::try_from`) and `vendor_id` (tag kind `UnsignedInt`, must
fit in 16 bits). -/
def IAmData.parse (apdu : APDU) : PResult (Option IAmData) :=
  if apdu.bytes.length ≤ 1 then .ub
  else do
    let (bytes, tag) ← Tag.parse (apdu.bytes.drop 2)
    if tag.tag_type ≠ TagType.ObjectId then
      PResult.err (.InvalidValue "expected object_id tag type for IAm device_id field")
    else do
      let (bytes, device_id) ← parse_object_id bytes tag.value
      if device_id.object_type ≠ ObjectType.ObjectDevice then
        PResult.err (.InvalidValue "expected device object type for IAm device_id field")
      else do
        let (bytes, tag) ← Tag.parse bytes
        if tag.tag_type ≠ TagType.UnsignedInt then
          PResult.err (.InvalidValue "expected unsigned_int tag type for IAm max_apdu field")
        else do
          let (bytes, max_apdu) ← parse_unsigned bytes tag.value
          let (bytes, tag) ← Tag.parse bytes
          if tag.tag_type ≠ TagType.Enumerated then
            PResult.err (.InvalidValue "expected enumerated tag type for IAm segmentation field")
          else do
            let (bytes, segValue) ← parse_unsigned bytes tag.value
            let segmentation ← PResult.ofExcept (Segmentation.tryFrom segValue)
            let (bytes, tag) ← Tag.parse bytes
            if tag.tag_type ≠ TagType.UnsignedInt then
              PResult.err (.InvalidValue "expected unsigned_int type for IAm vendor_id field")
            else do
              let (_, vendor_id) ← parse_unsigned bytes tag.value
              if vendor_id > 65535 then
                PResult.err (.InvalidValue "vendor_id out of range for IAm")
              else
                pure (some { device_id := device_id, max_apdu := max_apdu,
                             segmentation := segmentation, vendor_id := vendor_id })

-- `unconfirmed_request_pdu.rs` lines 7-14
inductive UnconfirmedServiceChoice where
  | IAm (d : Option IAmData)
  | IHave
  | WhoHas
  | WhoIs (l : Option WhoIsLimits)
  | Unknown
deriving DecidableEq, Repr

/-- `UnconfirmedServiceChoice::parse` (`unconfirmed_request_pdu.rs` lines
16-30): requires at least 2 bytes, else `Length`; dispatches on byte 1. -/
def UnconfirmedServiceChoice.parse (apdu : APDU) : PResult UnconfirmedServiceChoice :=
  if apdu.bytes.length < 2 then
    .err (.Length "wrong len for UnconfirmedServiceChoice")
  else
    match apdu.bytes.getD 1 0 with
    | 0x00 => do
      let d ← IAmData.parse apdu
      pure (.IAm d)
    | 0x01 => .ok .IHave
    | 0x07 => .ok .WhoHas
    | 0x08 => do
      let l ← WhoIsLimits.parse apdu
      pure (.WhoIs l)
    | _ => .ok .Unknown

/-!
Spec-side definitions.  Each of the following is written from the spec's
words, not from the source, and exists only to be compared with the
corresponding source-derived definition above.
-/

/-- Spec-side: "the big-endian unsigned integer encoded by the first `size`
bytes" (spec section 4.2), as a fold over the byte list. -/
def beValue (bs : List Nat) : Nat :=
  bs.foldl (fun acc b => acc * 256 + b) 0

/-- Spec-side: the Who-Is limits sequence of spec section 4.3 for a buffer
of more than 2 bytes, with the tag-number-0 check the code actually
performs (the tag class is not checked): parse a tag at offset 2, require
tag number 0, decode `low_limit` with the width declared by that tag,
parse a second tag without re-validating its number, decode `high_limit`
with the second tag's declared width, and ignore anything beyond it. -/
def whoIsSpecSteps (b : List Nat) : PResult (Option WhoIsLimits) := do
  let (afterTag1, tag1) ← Tag.parse (b.drop 2)
  if tag1.number ≠ 0 then
    PResult.err (.InvalidValue "Non-zero tag number in WhoIs")
  else do
    let (afterLow, low_limit) ← parse_unsigned afterTag1 tag1.value
    let (afterTag2, tag2) ← Tag.parse afterLow
    let (_ignoredTrailing, high_limit) ← parse_unsigned afterTag2 tag2.value
    pure (some { low_limit := low_limit, high_limit := high_limit })

/-! Helper lemmas about `PResult` and the decoders. -/

@[simp]
theorem PResult.pure_eq {α : Type} (a : α) : (pure a : PResult α) = .ok a := rfl

@[simp]
theorem PResult.monadBind_eq {α β : Type} (m : PResult α) (f : α → PResult β) :
    m >>= f = PResult.bind m f := rfl

@[simp]
theorem PResult.bind_ok {α β : Type} (a : α) (f : α → PResult β) :
    PResult.bind (.ok a) f = f a := rfl

@[simp]
theorem PResult.bind_err {α β : Type} (e : Error) (f : α → PResult β) :
    PResult.bind (.err e) f = .err e := rfl

@[simp]
theorem PResult.bind_ub {α β : Type} (f : α → PResult β) :
    PResult.bind .ub f = .ub := rfl

theorem PResult.bind_eq_ok {α β : Type} {m : PResult α} {f : α → PResult β} {b : β} :
    PResult.bind m f = .ok b ↔ ∃ a, m = .ok a ∧ f a = .ok b := by
  cases m <;> simp [PResult.bind]

theorem PResult.bind_ne_ub {α β : Type} {m : PResult α} {f : α → PResult β}
    (hm : m ≠ .ub) (hf : ∀ a, f a ≠ .ub) : PResult.bind m f ≠ .ub := by
  cases m <;> simp_all [PResult.bind]

theorem PResult.ofExcept_ne_ub {α : Type} (x : Except Error α) :
    PResult.ofExcept x ≠ .ub := by
  cases x <;> simp [PResult.ofExcept]

theorem lor_two_pow_mul_add (n : Nat) :
    ∀ a b : Nat, b < 2 ^ n → (2 ^ n * a) ||| b = 2 ^ n * a + b := by
  induction n with
  | zero =>
    intro a b h
    interval_cases b
    simp
  | succ n ih =>
    intro a b h
    have h2 : b / 2 < 2 ^ n := by
      refine (Nat.div_lt_iff_lt_mul (by norm_num)).2 ?_
      rw [pow_succ] at h
      omega
    have hbit : Nat.bit b.bodd b.div2 = b := Nat.bit_decomp b
    have hA : (2 ^ (n + 1) * a) = Nat.bit false (2 ^ n * a) := by
      simp [Nat.bit, pow_succ]
      ring
    calc (2 ^ (n + 1) * a) ||| b
        = Nat.bit false (2 ^ n * a) ||| Nat.bit b.bodd b.div2 := by rw [hA, hbit]
      _ = Nat.bit (false || b.bodd) ((2 ^ n * a) ||| b.div2) := by rw [Nat.lor_bit]
      _ = Nat.bit b.bodd (2 ^ n * a + b / 2) := by
            rw [Bool.false_or, Nat.div2_val, ih a (b / 2) h2]
      _ = 2 ^ (n + 1) * a + b := by
            have hmod := Nat.mod_two_of_bodd b
            have hdm := Nat.div_add_mod b 2
            have hx : 2 ^ n * 2 * a = 2 * (2 ^ n * a) := by ring
            cases hb : b.bodd <;> simp [Nat.bit, hb] at hmod ⊢ <;> rw [pow_succ] <;> omega

theorem shiftLeft_lor_eq_add (a b n : Nat) (h : b < 2 ^ n) :
    a <<< n ||| b = a * 2 ^ n + b := by
  rw [Nat.shiftLeft_eq, Nat.mul_comm a (2 ^ n), lor_two_pow_mul_add n a b h]

theorem parse_unsigned_ne_ub (bytes : List Nat) (sz : Nat) :
    parse_unsigned bytes sz ≠ .ub := by
  unfold parse_unsigned
  by_cases h1 : sz > 4 ∨ sz = 0
  · rw [if_pos h1]
    simp
  · rw [if_neg h1]
    push_neg at h1
    obtain ⟨h4, h0⟩ := h1
    by_cases h2 : bytes.length < sz
    · rw [if_pos h2]
      simp
    · rw [if_neg h2]
      push_neg at h2
      interval_cases sz <;>
        rcases bytes with _ | ⟨b0, _ | ⟨b1, _ | ⟨b2, _ | ⟨b3, rest⟩⟩⟩⟩ <;>
          simp_all

theorem tag_withLvt_ne_ub (number : Nat) (cls : TagClass) (lvt : Nat) (rest : List Nat) :
    Tag.withLvt number cls lvt rest ≠ .ub := by
  unfold Tag.withLvt
  split
  · simp
  · split
    · rcases rest with _ | ⟨l, rest2⟩
      · simp
      · dsimp only
        split
        · simp
        · split
          · rcases rest2 with _ | ⟨hi, _ | ⟨lo, rest3⟩⟩ <;> simp
          · rcases rest2 with _ | ⟨a, _ | ⟨b, _ | ⟨c, _ | ⟨d, rest3⟩⟩⟩⟩ <;> simp
    · split <;> simp

theorem tag_parse_ne_ub (bytes : List Nat) : Tag.parse bytes ≠ .ub := by
  unfold Tag.parse
  rcases bytes with _ | ⟨b0, rest⟩
  · simp
  · dsimp only
    split
    · rcases rest with _ | ⟨n, rest2⟩
      · simp
      · exact tag_withLvt_ne_ub _ _ _ _
    · exact tag_withLvt_ne_ub _ _ _ _

theorem parse_object_id_ne_ub (bytes : List Nat) (sz : Nat) :
    parse_object_id bytes sz ≠ .ub := by
  unfold parse_object_id
  cases h : parse_unsigned bytes sz with
  | ok a => rcases a with ⟨bs, v⟩; simp
  | err e => simp
  | ub => exact absurd h (parse_unsigned_ne_ub bytes sz)


/-- C2: for every byte buffer and size, `parse_unsigned` fails with
`InvalidValue` when the size is 0 or greater than 4; fails with `Length`
when the size is 1-4 but the buffer is shorter than it; and on a buffer of
at least `size` bytes returns the big-endian unsigned integer encoded by
the first `size` bytes together with the input minus those bytes. -/
theorem parse_unsigned_contract (bytes : List Nat) (sz : Nat) :
    (sz = 0 ∨ 4 < sz →
      parse_unsigned bytes sz = .err (.InvalidValue "unsigned len value is 0 or greater than 4")) ∧
    (1 ≤ sz → sz ≤ 4 → bytes.length < sz →
      parse_unsigned bytes sz = .err (.Length "unsigned len value greater than remaining bytes")) ∧
    (1 ≤ sz → sz ≤ 4 → sz ≤ bytes.length → (∀ b ∈ bytes, b < 256) →
      parse_unsigned bytes sz = .ok (bytes.drop sz, beValue (bytes.take sz))) := by
  refine ⟨?_, ?_, ?_⟩
  · intro h
    unfold parse_unsigned
    rw [if_pos (by omega)]
  · intro h1 h4 hlen
    unfold parse_unsigned
    rw [if_neg (by omega), if_pos hlen]
  · intro h1 h4 hlen hb
    unfold parse_unsigned
    rw [if_neg (by omega), if_neg (by omega)]
    interval_cases sz <;>
      rcases bytes with _ | ⟨b0, _ | ⟨b1, _ | ⟨b2, _ | ⟨b3, rest⟩⟩⟩⟩ <;>
        simp_all [beValue]
    all_goals
      have hb1 : b1 < 256 := by tauto
      have hb2 : b2 < 256 := by tauto
      rw [Nat.lor_assoc, shiftLeft_lor_eq_add b1 b2 8 (by norm_num; omega),
        shiftLeft_lor_eq_add b0 (b1 * 2 ^ 8 + b2) 16 (by norm_num; omega)]
      ring



theorem parse_unsigned_contract_witness :
    parse_unsigned [1, 2, 3] 3 = .ok ([], 0x010203) ∧
    parse_unsigned [1, 2, 3] 0 = .err (.InvalidValue "unsigned len value is 0 or greater than 4") ∧
    parse_unsigned [1, 2] 3 = .err (.Length "unsigned len value greater than remaining bytes") := by
  refine ⟨?_, ?_, ?_⟩
  · have h := (parse_unsigned_contract [1, 2, 3] 3).2.2 (by decide) (by decide) (by decide)
      (by decide)
    simpa [beValue] using h
  · exact (parse_unsigned_contract [1, 2, 3] 0).1 (Or.inl rfl)
  · exact (parse_unsigned_contract [1, 2] 3).2.1 (by decide) (by decide) (by decide)

/-- C3 (amended): converting an unsigned value to `Segmentation` succeeds
exactly on 0-4 (yielding `Both`, `Transmit`, `Receive`, `None` and the
sentinel `Max` respectively) and fails with `InvalidValue` for every value
of 5 or more; the source maps the wire value 4 to `Max`. -/
theorem segmentation_tryFrom_contract (v : Nat) :
    (v = 0 → Segmentation.tryFrom v = .ok .Both) ∧
    (v = 1 → Segmentation.tryFrom v = .ok .Transmit) ∧
    (v = 2 → Segmentation.tryFrom v = .ok .Receive) ∧
    (v = 3 → Segmentation.tryFrom v = .ok .None) ∧
    (v = 4 → Segmentation.tryFrom v = .ok .Max) ∧
    (5 ≤ v → Segmentation.tryFrom v = .error (.InvalidValue "invalid segmentation value")) := by
  refine ⟨?_, ?_, ?_, ?_, ?_, ?_⟩ <;> intro h <;> subst_eqs <;>
    first
    | rfl
    | (rcases v with _ | _ | _ | _ | _ | v <;> first | omega | rfl)

theorem segmentation_tryFrom_contract_witness :
    Segmentation.tryFrom 3 = .ok .None ∧
    Segmentation.tryFrom 7 = .error (.InvalidValue "invalid segmentation value") :=
  ⟨(segmentation_tryFrom_contract 3).2.2.2.1 rfl,
   (segmentation_tryFrom_contract 7).2.2.2.2.2 (by omega)⟩

/-- C3 counterexample: the claim says conversion fails for every value of
4 or more and that `Max` is never produced, but the source maps 4 to
`Ok(Segmentation::Max)`. -/
theorem segmentation_tryFrom_four_counterexample :
    Segmentation.tryFrom 4 = .ok .Max ∧
    Segmentation.tryFrom 4 ≠ .error (.InvalidValue "invalid segmentation value") :=
  ⟨rfl, by simp [Segmentation.tryFrom]⟩

/-- C4: the source `parse_enumerated` calls `.unwrap()` on the inner
`parse_unsigned` result, so on an input where the inner decode fails (here
bytes `[]`, size `0`, failing with `InvalidValue`) it aborts (`ub`)
instead of surfacing that failure as an error result. -/
theorem parse_enumerated_aborts_on_inner_failure :
    parse_unsigned [] 0 = .err (.InvalidValue "unsigned len value is 0 or greater than 4") ∧
    parse_enumerated Segmentation.tryFrom [] 0 = .ub := by
  decide

/-- C7: whenever `parse_unsigned` succeeds with value `v`, `parse_object_id`
succeeds and returns object type `(v >>> 22) &&& 0x3FF` mapped through the
`ObjectType` enumeration together with instance `v &&& 0x3FFFFF`, and the
mapping sends every unknown code to the reserved/proprietary variant
rather than an error. -/
theorem parse_object_id_contract (bytes : List Nat) (sz : Nat) (rest : List Nat) (v : Nat)
    (h : parse_unsigned bytes sz = .ok (rest, v)) :
    parse_object_id bytes sz =
      .ok (rest,
        { object_type := ObjectType.ofCode ((v >>> 22) &&& 0x3FF),
          id := v &&& 0x3FFFFF }) ∧
    (∀ c, c ≠ 8 → ObjectType.ofCode c = .Other c) := by
  constructor
  · unfold parse_object_id
    rw [h]
    rfl
  · intro c hc
    simp [ObjectType.ofCode, hc]

theorem parse_object_id_contract_witness :
    parse_object_id [0x00, 0x40, 0x00, 0x01] 4 =
      .ok ([], { object_type := ObjectType.Other 1, id := 1 }) ∧
    (ObjectType.Other 1).code = 1 := by
  have h := (parse_object_id_contract [0x00, 0x40, 0x00, 0x01] 4 [] 0x00400001 (by decide)).1
  exact ⟨h.trans (by decide), rfl⟩

/-- C8: on a Who-Is APDU buffer of exactly 2 bytes, `WhoIsLimits::parse`
returns the "no limits" outcome successfully, and the dispatcher on
`[0x10, 0x08]` returns `WhoIs(None)`. -/
theorem whoIs_two_byte_no_limits (b : List Nat) (h : b.length = 2) :
    WhoIsLimits.parse ⟨b⟩ = .ok none ∧
    UnconfirmedServiceChoice.parse ⟨[0x10, 0x08]⟩ = .ok (.WhoIs none) := by
  constructor
  · unfold WhoIsLimits.parse
    rw [h]
    rfl
  · decide

theorem whoIs_two_byte_no_limits_witness :
    WhoIsLimits.parse ⟨[0x10, 0x08]⟩ = .ok none :=
  (whoIs_two_byte_no_limits [0x10, 0x08] (by decide)).1

theorem PResult.bind_congr {α β : Type} {m : PResult α} {f g : α → PResult β}
    (h : ∀ a, f a = g a) : PResult.bind m f = PResult.bind m g := by
  cases m <;> simp [PResult.bind, h]

theorem PResult.ne_ub_cases {α : Type} (r : PResult α) (h : r ≠ .ub) :
    (∃ v, r = .ok v) ∨ (∃ m, r = .err (.Length m)) ∨ (∃ m, r = .err (.InvalidValue m)) := by
  cases r with
  | ok v => exact Or.inl ⟨v, rfl⟩
  | err e => cases e with
    | Length m => exact Or.inr (Or.inl ⟨m, rfl⟩)
    | InvalidValue m => exact Or.inr (Or.inr ⟨m, rfl⟩)
  | ub => exact absurd rfl h

theorem whoIsLimits_parse_ne_ub (b : List Nat) (h : 2 ≤ b.length) :
    WhoIsLimits.parse ⟨b⟩ ≠ .ub := by
  rcases b with _ | ⟨x, _ | ⟨y, _ | ⟨z, rest⟩⟩⟩
  · simp at h
  · simp at h
  · simp [WhoIsLimits.parse]
  · unfold WhoIsLimits.parse
    simp only [PResult.monadBind_eq]
    refine PResult.bind_ne_ub (tag_parse_ne_ub _) ?_
    rintro ⟨bytes, tag⟩
    by_cases h0 : tag.number ≠ 0
    · rw [if_pos h0]
      simp
    · rw [if_neg h0]
      simp only [PResult.monadBind_eq]
      refine PResult.bind_ne_ub (parse_unsigned_ne_ub _ _) ?_
      rintro ⟨bytes2, low⟩
      refine PResult.bind_ne_ub (tag_parse_ne_ub _) ?_
      rintro ⟨bytes3, tag2⟩
      refine PResult.bind_ne_ub (parse_unsigned_ne_ub _ _) ?_
      rintro ⟨bytes4, high⟩
      simp

theorem iAmData_parse_ne_ub (b : List Nat) (h : 2 ≤ b.length) :
    IAmData.parse ⟨b⟩ ≠ .ub := by
  rcases b with _ | ⟨x, _ | ⟨y, rest⟩⟩
  · simp at h
  · simp at h
  · unfold IAmData.parse
    simp only [PResult.monadBind_eq]
    refine PResult.bind_ne_ub (tag_parse_ne_ub _) ?_
    rintro ⟨bytes, tag⟩
    by_cases h1 : tag.tag_type ≠ TagType.ObjectId
    · rw [if_pos h1]
      simp
    · rw [if_neg h1]
      simp only [PResult.monadBind_eq]
      refine PResult.bind_ne_ub (parse_object_id_ne_ub _ _) ?_
      rintro ⟨bytes2, device_id⟩
      by_cases h2 : device_id.object_type ≠ ObjectType.ObjectDevice
      · rw [if_pos h2]
        simp
      · rw [if_neg h2]
        simp only [PResult.monadBind_eq]
        refine PResult.bind_ne_ub (tag_parse_ne_ub _) ?_
        rintro ⟨bytes3, tag2⟩
        by_cases h3 : tag2.tag_type ≠ TagType.UnsignedInt
        · rw [if_pos h3]
          simp
        · rw [if_neg h3]
          simp only [PResult.monadBind_eq]
          refine PResult.bind_ne_ub (parse_unsigned_ne_ub _ _) ?_
          rintro ⟨bytes4, max_apdu⟩
          refine PResult.bind_ne_ub (tag_parse_ne_ub _) ?_
          rintro ⟨bytes5, tag3⟩
          by_cases h4 : tag3.tag_type ≠ TagType.Enumerated
          · rw [if_pos h4]
            simp
          · rw [if_neg h4]
            simp only [PResult.monadBind_eq]
            refine PResult.bind_ne_ub (parse_unsigned_ne_ub _ _) ?_
            rintro ⟨bytes6, segValue⟩
            refine PResult.bind_ne_ub (PResult.ofExcept_ne_ub _) ?_
            intro seg
            refine PResult.bind_ne_ub (tag_parse_ne_ub _) ?_
            rintro ⟨bytes7, tag4⟩
            by_cases h5 : tag4.tag_type ≠ TagType.UnsignedInt
            · rw [if_pos h5]
              simp
            · rw [if_neg h5]
              simp only [PResult.monadBind_eq]
              refine PResult.bind_ne_ub (parse_unsigned_ne_ub _ _) ?_
              rintro ⟨bytes8, vendor⟩
              by_cases h6 : vendor > 65535
              · rw [if_pos h6]
                simp
              · rw [if_neg h6]
                simp

/-- C9: on every byte buffer the dispatcher is total: it returns a decoded
value or a `Length`/`InvalidValue` error and never reaches an abort (`ub`
embeds the source's `unreachable_unchecked` hints, which the `length >= 2`
check in the dispatcher keeps unreachable). -/
theorem unconfirmedServiceChoice_parse_total (b : List Nat) :
    (∃ v, UnconfirmedServiceChoice.parse ⟨b⟩ = .ok v) ∨
    (∃ m, UnconfirmedServiceChoice.parse ⟨b⟩ = .err (.Length m)) ∨
    (∃ m, UnconfirmedServiceChoice.parse ⟨b⟩ = .err (.InvalidValue m)) := by
  refine PResult.ne_ub_cases _ ?_
  unfold UnconfirmedServiceChoice.parse
  by_cases hlen : (⟨b⟩ : APDU).bytes.length < 2
  · rw [if_pos hlen]
    simp
  · rw [if_neg hlen]
    have h2 : 2 ≤ b.length := by simpa using Nat.le_of_not_lt hlen
    split
    · simp only [PResult.monadBind_eq]
      refine PResult.bind_ne_ub (iAmData_parse_ne_ub b h2) ?_
      intro d
      simp
    · simp
    · simp
    · simp only [PResult.monadBind_eq]
      refine PResult.bind_ne_ub (whoIsLimits_parse_ne_ub b h2) ?_
      intro l
      simp
    · simp

/-- C10: whenever `IAmData::parse` returns `Ok`, the optional payload is
populated: `Ok(None)` is never produced despite the `Option` in the return
type. -/
theorem iAmData_parse_ok_some (b : List Nat) (r : Option IAmData)
    (h : IAmData.parse ⟨b⟩ = .ok r) : ∃ d, r = some d := by
  rcases b with _ | ⟨x, _ | ⟨y, rest⟩⟩
  · simp [IAmData.parse] at h
  · simp [IAmData.parse] at h
  · unfold IAmData.parse at h
    rw [if_neg (by simp)] at h
    simp only [PResult.monadBind_eq] at h
    rw [PResult.bind_eq_ok] at h
    obtain ⟨⟨bytes, tag⟩, -, h⟩ := h
    split at h
    · cases h
    · rw [PResult.bind_eq_ok] at h
      obtain ⟨⟨bytes2, device_id⟩, -, h⟩ := h
      split at h
      · cases h
      · rw [PResult.bind_eq_ok] at h
        obtain ⟨⟨bytes3, tag2⟩, -, h⟩ := h
        split at h
        · cases h
        · rw [PResult.bind_eq_ok] at h
          obtain ⟨⟨bytes4, max_apdu⟩, -, h⟩ := h
          rw [PResult.bind_eq_ok] at h
          obtain ⟨⟨bytes5, tag3⟩, -, h⟩ := h
          split at h
          · cases h
          · rw [PResult.bind_eq_ok] at h
            obtain ⟨⟨bytes6, segValue⟩, -, h⟩ := h
            rw [PResult.bind_eq_ok] at h
            obtain ⟨seg, -, h⟩ := h
            rw [PResult.bind_eq_ok] at h
            obtain ⟨⟨bytes7, tag4⟩, -, h⟩ := h
            split at h
            · cases h
            · rw [PResult.bind_eq_ok] at h
              obtain ⟨⟨bytes8, vendor⟩, -, h⟩ := h
              split at h
              · cases h
              · simp only [PResult.pure_eq, PResult.ok.injEq] at h
                exact ⟨_, h.symm⟩

theorem iAmData_parse_ok_some_witness :
    IAmData.parse ⟨[0x10, 0x00, 0xC4, 0x02, 0x00, 0x00, 0x01, 0x21, 0x05, 0x91, 0x00, 0x21, 0x00]⟩ =
      .ok (some { device_id := { object_type := .ObjectDevice, id := 1 },
                  max_apdu := 5, segmentation := .Both, vendor_id := 0 }) ∧
    ∃ d, (some { device_id := { object_type := .ObjectDevice, id := 1 },
                 max_apdu := 5, segmentation := .Both, vendor_id := 0 } : Option IAmData) = some d :=
  ⟨by decide,
   iAmData_parse_ok_some [0x10, 0x00, 0xC4, 0x02, 0x00, 0x00, 0x01, 0x21, 0x05, 0x91, 0x00, 0x21, 0x00]
     (some { device_id := { object_type := .ObjectDevice, id := 1 },
             max_apdu := 5, segmentation := .Both, vendor_id := 0 }) (by decide)⟩

/-- C1 (amended): the dispatcher fails with `Length` on buffers of fewer
than 2 bytes and otherwise dispatches on byte 1 by exact match: `0x00`
routes to the I-Am payload decoder, `0x01` to `IHave`, `0x07` to `WhoHas`,
`0x08` to the Who-Is payload decoder, and any other service-choice byte
yields the unit variant `Unknown` (which does not carry the raw byte),
never an error. -/
theorem unconfirmedServiceChoice_parse_dispatch (b : List Nat) :
    (b.length < 2 →
      UnconfirmedServiceChoice.parse ⟨b⟩ = .err (.Length "wrong len for UnconfirmedServiceChoice")) ∧
    (∀ x rest, b = x :: 0x00 :: rest →
      UnconfirmedServiceChoice.parse ⟨b⟩ =
        PResult.bind (IAmData.parse ⟨b⟩) (fun d => .ok (.IAm d))) ∧
    (∀ x rest, b = x :: 0x01 :: rest → UnconfirmedServiceChoice.parse ⟨b⟩ = .ok .IHave) ∧
    (∀ x rest, b = x :: 0x07 :: rest → UnconfirmedServiceChoice.parse ⟨b⟩ = .ok .WhoHas) ∧
    (∀ x rest, b = x :: 0x08 :: rest →
      UnconfirmedServiceChoice.parse ⟨b⟩ =
        PResult.bind (WhoIsLimits.parse ⟨b⟩) (fun l => .ok (.WhoIs l))) ∧
    (∀ x s rest, b = x :: s :: rest → s ≠ 0x00 → s ≠ 0x01 → s ≠ 0x07 → s ≠ 0x08 →
      UnconfirmedServiceChoice.parse ⟨b⟩ = .ok .Unknown) := by
  refine ⟨?_, ?_, ?_, ?_, ?_, ?_⟩
  · intro h
    unfold UnconfirmedServiceChoice.parse
    rw [if_pos (by simpa using h)]
  · rintro x rest rfl
    rfl
  · rintro x rest rfl
    rfl
  · rintro x rest rfl
    rfl
  · rintro x rest rfl
    rfl
  · rintro x s rest rfl h0 h1 h7 h8
    unfold UnconfirmedServiceChoice.parse
    rw [if_neg (by simp)]
    have hs : (⟨x :: s :: rest⟩ : APDU).bytes.getD 1 0 = s := rfl
    rw [hs]
    split
    · omega
    · omega
    · omega
    · omega
    · rfl

theorem unconfirmedServiceChoice_parse_dispatch_witness :
    UnconfirmedServiceChoice.parse ⟨[0x10]⟩ =
      .err (.Length "wrong len for UnconfirmedServiceChoice") ∧
    UnconfirmedServiceChoice.parse ⟨[0x10, 0x01]⟩ = .ok .IHave ∧
    UnconfirmedServiceChoice.parse ⟨[0x10, 0xFE]⟩ = .ok .Unknown :=
  ⟨(unconfirmedServiceChoice_parse_dispatch [0x10]).1 (by decide),
   (unconfirmedServiceChoice_parse_dispatch [0x10, 0x01]).2.2.1 0x10 [] rfl,
   (unconfirmedServiceChoice_parse_dispatch [0x10, 0xFE]).2.2.2.2.2 0x10 0xFE [] rfl
     (by decide) (by decide) (by decide) (by decide)⟩

/-- C1 counterexample: the claim says an unrecognized service-choice byte
returns `Unknown` carrying the raw byte; the source's `Unknown` variant
carries nothing, so two buffers with distinct unrecognized service-choice
bytes decode to the identical value and the raw byte is not recoverable
from the result. -/
theorem unconfirmedServiceChoice_unknown_carries_no_byte :
    UnconfirmedServiceChoice.parse ⟨[0x10, 0xFE]⟩ = .ok .Unknown ∧
    UnconfirmedServiceChoice.parse ⟨[0x10, 0xFD]⟩ = .ok .Unknown ∧
    UnconfirmedServiceChoice.parse ⟨[0x10, 0xFE]⟩ =
      UnconfirmedServiceChoice.parse ⟨[0x10, 0xFD]⟩ := by
  decide

/-- C6 (amended): on every Who-Is APDU buffer of more than 2 bytes,
`WhoIsLimits::parse` performs exactly the spec-side sequence
`whoIsSpecSteps`: a tag parsed at offset 2 whose number must be 0 (the
class is not checked, so an application-class tag with number 0 is
accepted), `low_limit` decoded with that tag's declared width, a second
tag parsed without re-validating its number, `high_limit` decoded with the
second tag's declared width, and trailing bytes ignored. -/
theorem whoIsLimits_parse_matches_spec (b : List Nat) (h : 2 < b.length) :
    WhoIsLimits.parse ⟨b⟩ = whoIsSpecSteps b := by
  unfold WhoIsLimits.parse whoIsSpecSteps
  simp only [show (⟨b⟩ : APDU).bytes = b from rfl]
  rw [if_neg (by omega), if_neg (by omega)]

theorem whoIsLimits_parse_matches_spec_witness :
    WhoIsLimits.parse ⟨[0x10, 0x08, 0x09, 0x01, 0x19, 0x0A]⟩ =
      whoIsSpecSteps [0x10, 0x08, 0x09, 0x01, 0x19, 0x0A] ∧
    WhoIsLimits.parse ⟨[0x10, 0x08, 0x09, 0x01, 0x19, 0x0A]⟩ =
      .ok (some { low_limit := 1, high_limit := 10 }) :=
  ⟨whoIsLimits_parse_matches_spec [0x10, 0x08, 0x09, 0x01, 0x19, 0x0A] (by decide),
   by decide⟩

/-- C6 counterexample: the claim requires `InvalidValue` unless the tag at
offset 2 is context-specific with tag number 0, but the source checks only
the tag number: here the tag at offset 2 is byte `0x01`, an
application-class tag with number 0 and declared width 1, and the decode
succeeds with limits 5 and 10 instead of failing. -/
theorem whoIsLimits_accepts_application_class_tag :
    Tag.parse [0x01, 0x05, 0x19, 0x0A] =
      .ok ([0x05, 0x19, 0x0A],
        { number := 0, cls := .Application, value := 1, marker := .value }) ∧
    WhoIsLimits.parse ⟨[0x10, 0x08, 0x01, 0x05, 0x19, 0x0A]⟩ =
      .ok (some { low_limit := 5, high_limit := 10 }) := by
  decide

/-- C5: on every APDU buffer of more than 2 bytes (as dispatched for
service choice `0x00`), `IAmData::parse` decodes, in order, a device
object id, a max-apdu unsigned, a segmentation enumerated value and a
vendor id unsigned: any step whose observed tag kind mismatches the
expected kind (`ObjectId`, `UnsignedInt`, `Enumerated`, `UnsignedInt`)
fails with `InvalidValue`; a decoded object id whose object type is not
`Device` fails with `InvalidValue` regardless of the trailing bytes; a
decoded vendor id that does not fit in 16 bits fails with `InvalidValue`;
and when every step succeeds the record carries the fields decoded in
that order. -/
theorem iAmData_parse_sequence (b : List Nat) (h : 2 < b.length) :
    (∀ r1 t1, Tag.parse (b.drop 2) = .ok (r1, t1) →
      t1.tag_type ≠ TagType.ObjectId →
      IAmData.parse ⟨b⟩ =
        .err (.InvalidValue "expected object_id tag type for IAm device_id field")) ∧
    (∀ r1 t1 r2 oid, Tag.parse (b.drop 2) = .ok (r1, t1) →
      t1.tag_type = TagType.ObjectId →
      parse_object_id r1 t1.value = .ok (r2, oid) →
      oid.object_type ≠ ObjectType.ObjectDevice →
      IAmData.parse ⟨b⟩ =
        .err (.InvalidValue "expected device object type for IAm device_id field")) ∧
    (∀ r1 t1 r2 oid r3 t2, Tag.parse (b.drop 2) = .ok (r1, t1) →
      t1.tag_type = TagType.ObjectId →
      parse_object_id r1 t1.value = .ok (r2, oid) →
      oid.object_type = ObjectType.ObjectDevice →
      Tag.parse r2 = .ok (r3, t2) →
      t2.tag_type ≠ TagType.UnsignedInt →
      IAmData.parse ⟨b⟩ =
        .err (.InvalidValue "expected unsigned_int tag type for IAm max_apdu field")) ∧
    (∀ r1 t1 r2 oid r3 t2 r4 m r5 t3, Tag.parse (b.drop 2) = .ok (r1, t1) →
      t1.tag_type = TagType.ObjectId →
      parse_object_id r1 t1.value = .ok (r2, oid) →
      oid.object_type = ObjectType.ObjectDevice →
      Tag.parse r2 = .ok (r3, t2) →
      t2.tag_type = TagType.UnsignedInt →
      parse_unsigned r3 t2.value = .ok (r4, m) →
      Tag.parse r4 = .ok (r5, t3) →
      t3.tag_type ≠ TagType.Enumerated →
      IAmData.parse ⟨b⟩ =
        .err (.InvalidValue "expected enumerated tag type for IAm segmentation field")) ∧
    (∀ r1 t1 r2 oid r3 t2 r4 m r5 t3 r6 sv seg r7 t4, Tag.parse (b.drop 2) = .ok (r1, t1) →
      t1.tag_type = TagType.ObjectId →
      parse_object_id r1 t1.value = .ok (r2, oid) →
      oid.object_type = ObjectType.ObjectDevice →
      Tag.parse r2 = .ok (r3, t2) →
      t2.tag_type = TagType.UnsignedInt →
      parse_unsigned r3 t2.value = .ok (r4, m) →
      Tag.parse r4 = .ok (r5, t3) →
      t3.tag_type = TagType.Enumerated →
      parse_unsigned r5 t3.value = .ok (r6, sv) →
      Segmentation.tryFrom sv = Except.ok seg →
      Tag.parse r6 = .ok (r7, t4) →
      t4.tag_type ≠ TagType.UnsignedInt →
      IAmData.parse ⟨b⟩ =
        .err (.InvalidValue "expected unsigned_int type for IAm vendor_id field")) ∧
    (∀ r1 t1 r2 oid r3 t2 r4 m r5 t3 r6 sv seg r7 t4 r8 v, Tag.parse (b.drop 2) = .ok (r1, t1) →
      t1.tag_type = TagType.ObjectId →
      parse_object_id r1 t1.value = .ok (r2, oid) →
      oid.object_type = ObjectType.ObjectDevice →
      Tag.parse r2 = .ok (r3, t2) →
      t2.tag_type = TagType.UnsignedInt →
      parse_unsigned r3 t2.value = .ok (r4, m) →
      Tag.parse r4 = .ok (r5, t3) →
      t3.tag_type = TagType.Enumerated →
      parse_unsigned r5 t3.value = .ok (r6, sv) →
      Segmentation.tryFrom sv = Except.ok seg →
      Tag.parse r6 = .ok (r7, t4) →
      t4.tag_type = TagType.UnsignedInt →
      parse_unsigned r7 t4.value = .ok (r8, v) →
      ¬ v < 2 ^ 16 →
      IAmData.parse ⟨b⟩ = .err (.InvalidValue "vendor_id out of range for IAm")) ∧
    (∀ r1 t1 r2 oid r3 t2 r4 m r5 t3 r6 sv seg r7 t4 r8 v, Tag.parse (b.drop 2) = .ok (r1, t1) →
      t1.tag_type = TagType.ObjectId →
      parse_object_id r1 t1.value = .ok (r2, oid) →
      oid.object_type = ObjectType.ObjectDevice →
      Tag.parse r2 = .ok (r3, t2) →
      t2.tag_type = TagType.UnsignedInt →
      parse_unsigned r3 t2.value = .ok (r4, m) →
      Tag.parse r4 = .ok (r5, t3) →
      t3.tag_type = TagType.Enumerated →
      parse_unsigned r5 t3.value = .ok (r6, sv) →
      Segmentation.tryFrom sv = Except.ok seg →
      Tag.parse r6 = .ok (r7, t4) →
      t4.tag_type = TagType.UnsignedInt →
      parse_unsigned r7 t4.value = .ok (r8, v) →
      v < 2 ^ 16 →
      IAmData.parse ⟨b⟩ =
        .ok (some { device_id := oid, max_apdu := m, segmentation := seg, vendor_id := v })) := by
  have hb : (⟨b⟩ : APDU).bytes = b := rfl
  have hpow : (2 : Nat) ^ 16 = 65536 := by norm_num
  refine ⟨?_, ?_, ?_, ?_, ?_, ?_, ?_⟩
  · intro r1 t1 hT1 h1
    unfold IAmData.parse
    simp only [hb]
    rw [if_neg (by omega)]
    simp only [PResult.monadBind_eq]
    rw [hT1]
    simp only [PResult.bind_ok]
    rw [if_pos h1]
  · intro r1 t1 r2 oid hT1 h1 hO h2
    unfold IAmData.parse
    simp only [hb]
    rw [if_neg (by omega)]
    simp only [PResult.monadBind_eq]
    rw [hT1]
    simp only [PResult.bind_ok]
    rw [if_neg (by simp [h1]), hO]
    simp only [PResult.bind_ok]
    rw [if_pos h2]
  · intro r1 t1 r2 oid r3 t2 hT1 h1 hO h2 hT2 h3
    unfold IAmData.parse
    simp only [hb]
    rw [if_neg (by omega)]
    simp only [PResult.monadBind_eq]
    rw [hT1]
    simp only [PResult.bind_ok]
    rw [if_neg (by simp [h1]), hO]
    simp only [PResult.bind_ok]
    rw [if_neg (by simp [h2]), hT2]
    simp only [PResult.bind_ok]
    rw [if_pos h3]
  · intro r1 t1 r2 oid r3 t2 r4 m r5 t3 hT1 h1 hO h2 hT2 h3 hU1 hT3 h4
    unfold IAmData.parse
    simp only [hb]
    rw [if_neg (by omega)]
    simp only [PResult.monadBind_eq]
    rw [hT1]
    simp only [PResult.bind_ok]
    rw [if_neg (by simp [h1]), hO]
    simp only [PResult.bind_ok]
    rw [if_neg (by simp [h2]), hT2]
    simp only [PResult.bind_ok]
    rw [if_neg (by simp [h3]), hU1]
    simp only [PResult.bind_ok]
    rw [hT3]
    simp only [PResult.bind_ok]
    rw [if_pos h4]
  · intro r1 t1 r2 oid r3 t2 r4 m r5 t3 r6 sv seg r7 t4 hT1 h1 hO h2 hT2 h3 hU1 hT3 h4 hU2 hS hT4 h5
    unfold IAmData.parse
    simp only [hb]
    rw [if_neg (by omega)]
    simp only [PResult.monadBind_eq]
    rw [hT1]
    simp only [PResult.bind_ok]
    rw [if_neg (by simp [h1]), hO]
    simp only [PResult.bind_ok]
    rw [if_neg (by simp [h2]), hT2]
    simp only [PResult.bind_ok]
    rw [if_neg (by simp [h3]), hU1]
    simp only [PResult.bind_ok]
    rw [hT3]
    simp only [PResult.bind_ok]
    rw [if_neg (by simp [h4]), hU2]
    simp only [PResult.bind_ok]
    rw [hS]
    simp only [PResult.ofExcept, PResult.bind_ok]
    rw [hT4]
    simp only [PResult.bind_ok]
    rw [if_pos h5]
  · intro r1 t1 r2 oid r3 t2 r4 m r5 t3 r6 sv seg r7 t4 r8 v hT1 h1 hO h2 hT2 h3 hU1 hT3 h4 hU2 hS
      hT4 h5 hU3 h6
    unfold IAmData.parse
    simp only [hb]
    rw [if_neg (by omega)]
    simp only [PResult.monadBind_eq]
    rw [hT1]
    simp only [PResult.bind_ok]
    rw [if_neg (by simp [h1]), hO]
    simp only [PResult.bind_ok]
    rw [if_neg (by simp [h2]), hT2]
    simp only [PResult.bind_ok]
    rw [if_neg (by simp [h3]), hU1]
    simp only [PResult.bind_ok]
    rw [hT3]
    simp only [PResult.bind_ok]
    rw [if_neg (by simp [h4]), hU2]
    simp only [PResult.bind_ok]
    rw [hS]
    simp only [PResult.ofExcept, PResult.bind_ok]
    rw [hT4]
    simp only [PResult.bind_ok]
    rw [if_neg (by simp [h5]), hU3]
    simp only [PResult.bind_ok]
    rw [if_pos (by omega)]
  · intro r1 t1 r2 oid r3 t2 r4 m r5 t3 r6 sv seg r7 t4 r8 v hT1 h1 hO h2 hT2 h3 hU1 hT3 h4 hU2 hS
      hT4 h5 hU3 h6
    unfold IAmData.parse
    simp only [hb]
    rw [if_neg (by omega)]
    simp only [PResult.monadBind_eq]
    rw [hT1]
    simp only [PResult.bind_ok]
    rw [if_neg (by simp [h1]), hO]
    simp only [PResult.bind_ok]
    rw [if_neg (by simp [h2]), hT2]
    simp only [PResult.bind_ok]
    rw [if_neg (by simp [h3]), hU1]
    simp only [PResult.bind_ok]
    rw [hT3]
    simp only [PResult.bind_ok]
    rw [if_neg (by simp [h4]), hU2]
    simp only [PResult.bind_ok]
    rw [hS]
    simp only [PResult.ofExcept, PResult.bind_ok]
    rw [hT4]
    simp only [PResult.bind_ok]
    rw [if_neg (by simp [h5]), hU3]
    simp only [PResult.bind_ok]
    rw [if_neg (by omega)]
    rfl



theorem iAmData_parse_sequence_witness :
    IAmData.parse ⟨[0x10, 0x00, 0xC4, 0x02, 0x00, 0x00, 0x01, 0x21, 0x05, 0x91, 0x00, 0x21, 0x00]⟩ =
      .ok (some { device_id := { object_type := .ObjectDevice, id := 1 },
                  max_apdu := 5, segmentation := .Both, vendor_id := 0 }) ∧
    IAmData.parse ⟨[0x10, 0x00, 0xC4, 0x02, 0x40, 0x00, 0x01]⟩ =
      .err (.InvalidValue "expected device object type for IAm device_id field") :=
  ⟨(iAmData_parse_sequence
      [0x10, 0x00, 0xC4, 0x02, 0x00, 0x00, 0x01, 0x21, 0x05, 0x91, 0x00, 0x21, 0x00]
      (by decide)).2.2.2.2.2.2
      [0x02, 0x00, 0x00, 0x01, 0x21, 0x05, 0x91, 0x00, 0x21, 0x00]
      { number := 12, cls := .Application, value := 4, marker := .value }
      [0x21, 0x05, 0x91, 0x00, 0x21, 0x00] { object_type := .ObjectDevice, id := 1 }
      [0x05, 0x91, 0x00, 0x21, 0x00] { number := 2, cls := .Application, value := 1, marker := .value }
      [0x91, 0x00, 0x21, 0x00] 5
      [0x00, 0x21, 0x00] { number := 9, cls := .Application, value := 1, marker := .value }
      [0x21, 0x00] 0 .Both
      [0x00] { number := 2, cls := .Application, value := 1, marker := .value }
      [] 0
      (by decide) (by decide) (by decide) (by decide) (by decide) (by decide) (by decide)
      (by decide) (by decide) (by decide) rfl (by decide) (by decide) (by decide)
      (by decide),
   (iAmData_parse_sequence [0x10, 0x00, 0xC4, 0x02, 0x40, 0x00, 0x01] (by decide)).2.1
      [0x02, 0x40, 0x00, 0x01]
      { number := 12, cls := .Application, value := 4, marker := .value }
      [] { object_type := .Other 9, id := 1 }
      (by decide) (by decide) (by decide) (by decide)⟩

end BacnetParse
